import Mathlib

/-!
Shallow embedding of `one_model_update.py`, a single-file page-change monitor.

The script fetches one web page, extracts an optional "Last update:" date
stamp and all HTML tables (combined into one dataset), compares the date and
an md5-based content fingerprint against state persisted in three local
files, and — when a change is detected — rewrites the state files and sends
an email notification.

Modelling decisions, each noted again at the definition it concerns:
* HTML parsing (`BeautifulSoup`) is abstracted: a parsed page (`Soup`) is a
  flat list of elements in document order, each a non-table tag with its
  stripped text or a table with its raw cell grid, plus the result of the
  `re.search` for the date stamp (the three captured numeric fields).
* The digest pipeline `hashlib.md5(pd.util.hash_pandas_object(df).values)`
  is modelled as an abstract function `digest` over the ordered row list,
  passed as a parameter; theorems about fingerprint sensitivity take its
  injectivity as a hypothesis (true modulo hash collisions).
* File contents are stored typed (a date value rather than its `%Y-%m-%d`
  rendering); `strftime`/`strptime` with the same fixed format round-trip,
  so nothing is lost.  The one file state the script can actually produce
  that does not parse back — a date file truncated by `open(..., "w")`
  before the write crashed — is kept as an explicit `DateFile.truncated`.
* Exceptions are explicit: fallible steps return `Except` or pair their
  result with an optional error, and `main` propagates them as outcomes.
-/

namespace OneModel

/-- A calendar date, as produced by `datetime.strptime(...).date()`. -/
structure Date where
  year : Nat
  month : Nat
  day : Nat
deriving DecidableEq

/-- Zero-pad a number to two digits, as Python's date formatting does. -/
def pad2 (n : Nat) : String :=
  if n < 10 then "0" ++ toString n else toString n

/-- Python `str()` of an optional date: `None`, or ISO `YYYY-MM-DD`. -/
def showOptDate : Option Date → String
  | none => "None"
  | some d => s!"{d.year}-{pad2 d.month}-{pad2 d.day}"

/-- One extracted data row: the six table cells plus the appended Level cell. -/
abbrev Row := List String

/-- An element of the parsed document, in document order: a non-table tag
with its tag name and stripped text, or a table with its raw cell grid. -/
inductive Elem where
  | node (tag : String) (text : String)
  | table (raw : List (List String))
deriving DecidableEq

/-- A parsed page: the element list, plus the result of
`re.search(r"Last update:\s*(\d\{1,2\}/\d\{1,2\}/\d\{2\})", soup.text)` —
the three captured numeric fields (month, day, two-digit year), or `none`
when the pattern is absent. -/
structure Soup where
  elems : List Elem
  stamp : Option (Nat × Nat × Nat)
deriving DecidableEq

/-- An HTTP response from `requests.get`: status code and parsed body.
The script never consults `status_code` (no `raise_for_status`). -/
structure Response where
  status_code : Nat
  body : Soup
deriving DecidableEq

/-- `datetime.strptime(g, "%m/%d/%y")`: `%y` maps 00–68 to 20xx, 69–99 to 19xx. -/
def mdyToDate (m d y2 : Nat) : Date :=
  ⟨if y2 ≤ 68 then 2000 + y2 else 1900 + y2, m, d⟩

/-- `fetch_update_date` (lines 29–35): the parsed date of the page's
"Last update:" stamp, or `none` when the regex does not match. -/
def fetch_update_date (soup : Soup) : Option Date :=
  match soup.stamp with
  | some (m, d, y2) => some (mdyToDate m d y2)
  | none => none

/-- The tag names accepted as a table's label source (line 48):
`["h1", "h2", "h3", "h4", "strong", "p"]`. -/
def labelTags : List String := ["h1", "h2", "h3", "h4", "strong", "p"]

/-- The backward scan of lines 46–52: walk the preceding elements in reverse
document order (`find_all_previous`), returning the stripped text of the
first element whose tag is in `labelTags` and whose text is non-empty; an
element with a matching tag but empty text does not stop the scan. -/
def findTitle (fallback : String) : List Elem → String
  | [] => fallback
  | .node tag text :: rest =>
    if tag ∈ labelTags then
      (if text ≠ "" then text else findTitle fallback rest)
    else findTitle fallback rest
  | .table _ :: rest => findTitle fallback rest

/-- The synthetic label of line 46: `f"Untitled Table {i+1}"` with the
1-based table index. -/
def untitledLabel (i : Nat) : String := s!"Untitled Table {i}"

/-- Width of the table as `pd.read_html` sees it (ragged rows are padded to
the widest row). -/
def maxRowLen (raw : List (List String)) : Nat :=
  (raw.map List.length).foldl max 0

/-- Pad a row to the six-column width, modelling `read_html`'s NaN fill. -/
def padRow (r : List String) : List String :=
  r ++ List.replicate (6 - r.length) ""

/-- Lines 55–58 for one table: `pd.read_html` (fails on a table with no
rows), `df.columns = columns` (fails unless the parsed width is exactly the
six configured column names), `df.drop(index=0)` (discard the first row),
`df["Level"] = title` (append the label to every row).  The `except` of
line 61 receives the error. -/
def parseTable (title : String) (raw : List (List String)) : Except String (List Row) :=
  if raw.isEmpty then .error "No tables found"
  else if maxRowLen raw ≠ 6 then .error "Length mismatch"
  else .ok ((raw.drop 1).map fun r => padRow r ++ [title])

/-- `soup.find_all("table")` together with each table's preceding elements
in reverse document order: traverse the document accumulating the reversed
prefix, pairing every table with the accumulator at that point. -/
def collectTables : List Elem → List Elem → List (List Elem × List (List String))
  | _, [] => []
  | prevRev, .table raw :: rest =>
    (prevRev, raw) :: collectTables (.table raw :: prevRev) rest
  | prevRev, .node tag text :: rest =>
    collectTables (.node tag text :: prevRev) rest

/-- The loop of lines 44–62 from table number `i` on: label each table,
append the parsed rows of the tables that parse, and record one warning
(line 62) per table that does not. -/
def combineTables : Nat → List (List Elem × List (List String)) → List Row × List String
  | _, [] => ([], [])
  | i, (prevRev, raw) :: rest =>
    let title := findTitle (untitledLabel i) prevRev
    let tail := combineTables (i + 1) rest
    match parseTable title raw with
    | .ok rs => (rs ++ tail.1, tail.2)
    | .error e => (tail.1, s!"Failed to parse table {i}: {e}" :: tail.2)

/-- `extract_and_combine_tables` (lines 38–64): the combined dataset in
source order, together with the parse warnings printed along the way. -/
def extract_and_combine_tables (doc : List Elem) : List Row × List String :=
  combineTables 1 (collectTables [] doc)

/-- Contents of the `last_update_date.txt` file: absent, truncated by an
`open(..., "w")` whose write then crashed (empty file), or a saved date. -/
inductive DateFile where
  | absent
  | truncated
  | saved (d : Date)
deriving DecidableEq

/-- The three persisted state files (lines 15–17). -/
structure Store where
  dateFile : DateFile
  csvFile : Option (List Row)
  hashFile : Option String
deriving DecidableEq

/-- The state before any run: none of the three files exists. -/
def emptyStore : Store := ⟨.absent, none, none⟩

/-- `load_previous_state` (lines 67–80): a missing file yields `None`; an
existing date file is parsed with `strptime("%Y-%m-%d")`, which raises on a
truncated (empty) file; the hash file is read verbatim. -/
def load_previous_state (s : Store) : Except String (Option Date × Option String) :=
  match s.dateFile with
  | .truncated => .error "ValueError: time data does not match format %Y-%m-%d"
  | .absent => .ok (none, s.hashFile)
  | .saved d => .ok (some d, s.hashFile)

/-- Line 95 and line 131: the content fingerprint
`hashlib.md5(pd.util.hash_pandas_object(df, index=True).values).hexdigest()`,
modelled as an abstract digest applied to the ordered row list. -/
def compute_hash {α : Type} (digest : List Row → α) (rows : List Row) : α :=
  digest rows

/-- One file write performed by `save_current_state`. -/
inductive SaveOp where
  | truncateDate
  | writeDate (d : Date)
  | writeCsv (rows : List Row)
  | writeHash (h : String)
deriving DecidableEq

/-- Effect of a single write on the on-disk state. -/
def applyOp (s : Store) : SaveOp → Store
  | .truncateDate => { s with dateFile := .truncated }
  | .writeDate d => { s with dateFile := .saved d }
  | .writeCsv rows => { s with csvFile := some rows }
  | .writeHash h => { s with hashFile := some h }

/-- Apply a sequence of writes in order; a run interrupted mid-save has
performed a prefix of the full sequence. -/
def runOps (s : Store) (ops : List SaveOp) : Store :=
  ops.foldl applyOp s

/-- The write sequence of `save_current_state` (lines 83–97) on a present
date: open-and-truncate the date file, write the formatted date, write the
dataset CSV, then compute and write the fingerprint.  The writes are
sequential, with no temporary file or rename. -/
def saveOps (digest : List Row → String) (d : Date) (rows : List Row) : List SaveOp :=
  [.truncateDate, .writeDate d, .writeCsv rows, .writeHash (compute_hash digest rows)]

/-- `save_current_state` (lines 83–97).  `open(LAST_DATE_FILE, "w")`
truncates the file before `update_date.strftime(...)` is evaluated, so a
`None` date raises `AttributeError` after the truncation, leaving the CSV
and hash files unwritten.  Returns the resulting on-disk state and the
unhandled error, if any. -/
def save_current_state (digest : List Row → String) (update_date : Option Date)
    (rows : List Row) (s : Store) : Store × Option String :=
  match update_date with
  | none =>
    (applyOp s .truncateDate, some "AttributeError: NoneType object has no attribute strftime")
  | some d => (runOps s (saveOps digest d rows), none)

/-- The message of line 139. -/
def dateChangeMessage (prev latest : Option Date) : String :=
  s!"Page update date changed: {showOptDate prev} -> {showOptDate latest}"

/-- The message of line 144. -/
def hashChangeMessage : String := "Table content has changed since last check."

/-- The condition of line 137: `latest_update_date and latest_update_date
!= prev_date` — a date object is always truthy, `None` is falsy, and a date
never equals `None`. -/
def date_change_fires (latest prev : Option Date) : Bool :=
  match latest with
  | none => false
  | some d => decide (prev ≠ some d)

/-- The condition of line 142: `current_hash != prev_hash` — a string never
equals `None`. -/
def hash_change_fires (current : String) (prev : Option String) : Bool :=
  decide (prev ≠ some current)

/-- The change detector of lines 133–144: each check independently sets the
flag and appends its message, date check first. -/
def detect_changes (latest prev_date : Option Date) (current_hash : String)
    (prev_hash : Option String) : Bool × List String :=
  let afterDate : Bool × List String :=
    if date_change_fires latest prev_date then (true, [dateChangeMessage prev_date latest])
    else (false, [])
  if hash_change_fires current_hash prev_hash then (true, afterDate.2 ++ [hashChangeMessage])
  else afterDate

/-- Line 18: `EMAIL_NOTIFICATION = True`. -/
def EMAIL_NOTIFICATION : Bool := true

/-- How one invocation of the script ends. -/
inductive Outcome where
  | fatal (err : String)
  | noTables
  | noChange
  | changed (messages : List String)
  | crashedInSave (err : String)
deriving DecidableEq

/-- The observable result of one run: how it ended, the resulting on-disk
state, and whether an email notification was attempted. -/
structure RunResult where
  outcome : Outcome
  store : Store
  emailAttempted : Bool
deriving DecidableEq

/-- `main` (lines 114–154).  `requests.get` raises only on transport-level
failure (modelled as the `Except.error` input); the response body is parsed
whatever the status code, which is never consulted.  An empty combined
dataset aborts before any state is read or written.  When a change is
detected, state is saved before notification is attempted; a crash inside
the save aborts the run before any email. -/
def main (digest : List Row → String) (fetched : Except String Response) (s : Store) :
    RunResult :=
  match fetched with
  | .error e => ⟨.fatal e, s, false⟩
  | .ok resp =>
    let soup := resp.body
    let latest := fetch_update_date soup
    let rows := (extract_and_combine_tables soup.elems).1
    if rows.isEmpty then ⟨.noTables, s, false⟩
    else
      match load_previous_state s with
      | .error e => ⟨.fatal e, s, false⟩
      | .ok (prev_date, prev_hash) =>
        let current_hash := compute_hash digest rows
        let det := detect_changes latest prev_date current_hash prev_hash
        if det.1 then
          match save_current_state digest latest rows s with
          | (s1, some err) => ⟨.crashedInSave err, s1, false⟩
          | (s1, none) => ⟨.changed det.2, s1, EMAIL_NOTIFICATION⟩
        else ⟨.noChange, s, false⟩

/-- A concrete raw table: header row plus one data row, six columns wide. -/
def sampleRaw : List (List String) :=
  [["Date", "Loc.", "Title", "Company", "Location", "Link"],
   ["5/1/25", "US", "Analyst", "Acme", "NYC", "http"]]

/-- The row `sampleRaw` extracts to when labelled `Untitled Table 1`. -/
def sampleRow : Row := ["5/1/25", "US", "Analyst", "Acme", "NYC", "http", "Untitled Table 1"]

/-- A concrete page: one well-formed table and a `Last update: 1/2/25` stamp. -/
def sampleSoup : Soup := ⟨[.table sampleRaw], some (1, 2, 25)⟩

/-- A concrete digest for witnesses: the dataset's row count, as text. -/
def digestLen : List Row → String := fun rows => toString rows.length

/-- Whether an element is an acceptable label source: one of the label tags
with non-empty stripped text. -/
def isLabelElem : Elem → Bool
  | .node tag text => decide (tag ∈ labelTags) && decide (text ≠ "")
  | .table _ => false

/-- The label rule as the specification words it: the text of the first
element, walking backward through the preceding elements in reverse document
order, that is a label-source element with non-empty text; the fallback when
no such element exists.  Stated with `List.find?` to be compared against the
source's scanning loop `findTitle`. -/
def specLabel (prevRev : List Elem) (fallback : String) : String :=
  match prevRev.find? isLabelElem with
  | some (.node _ text) => text
  | _ => fallback

/-- C1: the Change Detector marks `changed = true` exactly when the current
update date is present and differs from the stored date, or when the current
fingerprint differs from the stored fingerprint (an absent stored value
differs from everything); the two checks are independent, their messages
accumulate in order (both may fire in one run), and when neither fires the
result is `changed = false` with no messages. -/
theorem detect_changes_correct (latest prev_date : Option Date) (ch : String)
    (ph : Option String) :
    ((detect_changes latest prev_date ch ph).1 = true ↔
      ((∃ d, latest = some d ∧ prev_date ≠ some d) ∨ ph ≠ some ch)) ∧
    (detect_changes latest prev_date ch ph).2 =
      (if date_change_fires latest prev_date then [dateChangeMessage prev_date latest] else []) ++
      (if hash_change_fires ch ph then [hashChangeMessage] else []) ∧
    ((detect_changes latest prev_date ch ph).1 = false →
      (detect_changes latest prev_date ch ph).2 = []) := by
  have hd : date_change_fires latest prev_date = true ↔
      (∃ d, latest = some d ∧ prev_date ≠ some d) := by
    cases latest <;> simp [date_change_fires]
  have hh : hash_change_fires ch ph = true ↔ ph ≠ some ch := by
    simp [hash_change_fires]
  rw [← hd, ← hh]
  cases hdf : date_change_fires latest prev_date <;>
    cases hhf : hash_change_fires ch ph <;>
      simp [detect_changes, hdf, hhf]

/-- C4 (counterexample): the write sequence of `save_current_state` is not
atomic.  Starting from a store consistent with a previous run's observation
(dataset `[sampleRow]`), a save of the new observation (date `2025-02-01`,
dataset `[sampleRow, sampleRow]`) interrupted after its second write leaves
the date file holding the new date while the dataset and fingerprint files
still hold the previous dataset — the date file and dataset file point to
inconsistent versions.  The last conjunct checks that the modelled write
sequence is exactly what `save_current_state` performs. -/
theorem interrupted_save_mixed_state :
    runOps ⟨.saved ⟨2025, 1, 1⟩, some [sampleRow], some (digestLen [sampleRow])⟩
        ((saveOps digestLen ⟨2025, 2, 1⟩ [sampleRow, sampleRow]).take 2) =
      ⟨.saved ⟨2025, 2, 1⟩, some [sampleRow], some (digestLen [sampleRow])⟩ ∧
    digestLen [sampleRow] ≠ digestLen [sampleRow, sampleRow] ∧
    ([sampleRow] : List Row) ≠ [sampleRow, sampleRow] ∧
    save_current_state digestLen (some ⟨2025, 2, 1⟩) [sampleRow, sampleRow]
        ⟨.saved ⟨2025, 1, 1⟩, some [sampleRow], some (digestLen [sampleRow])⟩ =
      (runOps ⟨.saved ⟨2025, 1, 1⟩, some [sampleRow], some (digestLen [sampleRow])⟩
        (saveOps digestLen ⟨2025, 2, 1⟩ [sampleRow, sampleRow]), none) := by
  refine ⟨rfl, by decide, by decide, rfl⟩

/-- C4 (amended): a save that runs to completion does leave the three files
consistent — for a present date, `save_current_state` always produces
exactly the date, dataset and fingerprint of the state it was given, with no
error.  Only an uninterrupted save guarantees this; `interrupted_save_mixed_state`
shows a mid-save interruption breaks it. -/
theorem completed_save_consistent (digest : List Row → String) (d : Date)
    (rows : List Row) (s : Store) :
    save_current_state digest (some d) rows s =
      (⟨.saved d, some rows, some (compute_hash digest rows)⟩, none) := rfl

/-- C6: the fingerprint is computed over the ordered row list, so any
injective digest separates two datasets that hold the same rows (identical
cell values) in different order.  The digest stands for
`md5(hash_pandas_object(df))`, whose input serializes rows in dataset
order. -/
theorem fingerprint_order_sensitive {α : Type} (digest : List Row → α)
    (hinj : Function.Injective digest) (r1 r2 : List Row)
    (_hcells : List.Perm r1 r2) (hne : r1 ≠ r2) :
    compute_hash digest r1 ≠ compute_hash digest r2 :=
  fun h => hne (hinj h)

/-- Witness for C6 at a concrete reordered pair, with the identity as the
injective digest. -/
theorem fingerprint_order_sensitive_witness :
    compute_hash (fun rows => rows) [["a"], ["b"]] ≠
      compute_hash (fun rows => rows) [["b"], ["a"]] :=
  fingerprint_order_sensitive (fun rows => rows) (fun _ _ h => h) [["a"], ["b"]]
    [["b"], ["a"]] (by decide) (by decide)

/-- C7: a table that fails to parse is skipped with one logged warning and
extraction continues — a page of three tables whose second is malformed
yields exactly the rows of tables 1 and 3, in source order, and the warning
for table 2; no error escapes the extraction. -/
theorem malformed_table_skipped (raw1 raw2 raw3 : List (List String))
    (rs1 rs3 : List Row) (e2 : String)
    (h1 : parseTable (untitledLabel 1) raw1 = .ok rs1)
    (h2 : parseTable (untitledLabel 2) raw2 = .error e2)
    (h3 : parseTable (untitledLabel 3) raw3 = .ok rs3) :
    extract_and_combine_tables [.table raw1, .table raw2, .table raw3] =
      (rs1 ++ rs3, [s!"Failed to parse table {(2 : Nat)}: {e2}"]) := by
  simp [extract_and_combine_tables, collectTables, combineTables, findTitle, h1, h2, h3]

/-- Witness for C7: concrete tables around a one-cell (wrong-width) table 2. -/
theorem malformed_table_skipped_witness :
    parseTable (untitledLabel 1) sampleRaw = .ok [sampleRow] ∧
    parseTable (untitledLabel 2) [["x"]] = .error "Length mismatch" ∧
    extract_and_combine_tables [.table sampleRaw, .table [["x"]], .table sampleRaw] =
      ([sampleRow,
        ["5/1/25", "US", "Analyst", "Acme", "NYC", "http", "Untitled Table 3"]],
       ["Failed to parse table 2: Length mismatch"]) :=
  ⟨rfl, rfl,
    malformed_table_skipped sampleRaw [["x"]] sampleRaw [sampleRow]
      [["5/1/25", "US", "Analyst", "Acme", "NYC", "http", "Untitled Table 3"]]
      "Length mismatch" rfl rfl rfl⟩

/-- C8: a page from which the combined dataset comes out empty (zero tables
found or parseable) ends the run cleanly: the outcome is the soft abort, the
stored state is untouched, and no notification is attempted. -/
theorem empty_dataset_soft_abort (digest : List Row → String) (st : Nat)
    (soup : Soup) (s : Store)
    (h : (extract_and_combine_tables soup.elems).1 = []) :
    main digest (.ok ⟨st, soup⟩) s = ⟨.noTables, s, false⟩ := by
  simp [main, h]

/-- Witness for C8: a page whose only table is malformed — a table is found
but none is parseable, and the run soft-aborts with state untouched. -/
theorem empty_dataset_soft_abort_witness :
    (extract_and_combine_tables [.table [["x"]]]).1 = [] ∧
    main digestLen (.ok ⟨200, ⟨[.table [["x"]]], some (1, 2, 25)⟩⟩) emptyStore =
      ⟨.noTables, emptyStore, false⟩ :=
  ⟨rfl, empty_dataset_soft_abort digestLen 200 ⟨[.table [["x"]]], some (1, 2, 25)⟩
    emptyStore rfl⟩

/-- C9: the label assigned to a table is precisely what the specification
describes: the text of the first element, walking backward through the
preceding elements in reverse document order, that belongs to the
label-source element class (the source's tag set `h1`–`h4`, `strong`, `p`)
and has non-empty text; when no such element exists, the fallback — which
`combineTables` instantiates with `untitledLabel` at the table's 1-based
document-order index.  The source's backward scan `findTitle` agrees with
the spec-worded first-match rule `specLabel` on every input. -/
theorem table_label_rule (fallback : String) (prevRev : List Elem) :
    findTitle fallback prevRev = specLabel prevRev fallback := by
  induction prevRev with
  | nil => rfl
  | cons e rest ih =>
    cases e with
    | node tag text =>
      by_cases htag : tag ∈ labelTags
      · by_cases htext : text = ""
        · simpa [findTitle, specLabel, isLabelElem, htag, htext, List.find?] using ih
        · simp [findTitle, specLabel, isLabelElem, htag, htext, List.find?]
      · simpa [findTitle, specLabel, isLabelElem, htag, List.find?] using ih
    | table raw =>
      simpa [findTitle, specLabel, isLabelElem, List.find?] using ih

/-- C10: the fetch step fails only on transport-level failure.  The response
body is parsed the same whatever the status code — `main` never consults it
(no `raise_for_status`), so no two status codes with the same body can be
told apart; a transport error is the fatal abort; and an error page (status
404) whose body holds no parseable table falls through to the empty-dataset
soft abort rather than any network-level failure. -/
theorem fetch_status_never_consulted (digest : List Row → String) (st1 st2 : Nat)
    (body : Soup) (s : Store) (e : String) :
    main digest (.ok ⟨st1, body⟩) s = main digest (.ok ⟨st2, body⟩) s ∧
    main digest (.error e) s = ⟨.fatal e, s, false⟩ ∧
    ((extract_and_combine_tables body.elems).1 = [] →
      main digest (.ok ⟨404, body⟩) s = ⟨.noTables, s, false⟩) := by
  refine ⟨rfl, rfl, fun h => ?_⟩
  simp [main, h]

/-- Witness for C10: a 404 response with a tableless body soft-aborts. -/
theorem fetch_status_never_consulted_witness :
    (extract_and_combine_tables (Soup.mk [] none).elems).1 = [] ∧
    main digestLen (.ok ⟨404, ⟨[], none⟩⟩) emptyStore = ⟨.noTables, emptyStore, false⟩ :=
  ⟨rfl, (fetch_status_never_consulted digestLen 404 404 ⟨[], none⟩ emptyStore "err").2.2 rfl⟩

/-- C2 (counterexample): on a first run (no prior state files) against a
page with a non-empty extracted dataset but no `Last update:` stamp, a
change is detected but the full state is not written — the save crashes
formatting the absent date, leaving only a truncated date file, with the
dataset and fingerprint files never created. -/
theorem first_run_without_stamp_partial_state :
    (extract_and_combine_tables (Soup.mk [.table sampleRaw] none).elems).1 ≠ [] ∧
    (main digestLen (.ok ⟨200, ⟨[.table sampleRaw], none⟩⟩) emptyStore).store =
      ⟨.truncated, none, none⟩ ∧
    (main digestLen (.ok ⟨200, ⟨[.table sampleRaw], none⟩⟩) emptyStore).outcome =
      .crashedInSave "AttributeError: NoneType object has no attribute strftime" := by
  refine ⟨by decide, rfl, rfl⟩

/-- C2 (amended): on a first run (no prior state files), every non-empty
extracted dataset yields a detected change; when the extracted update date
is present the run completes the save, so the full state — date file,
dataset file and fingerprint file — is written (and both change messages
fire, the stored values being absent). -/
theorem first_run_baseline (digest : List Row → String) (st : Nat) (soup : Soup)
    (d : Date)
    (hrows : (extract_and_combine_tables soup.elems).1 ≠ [])
    (hdate : fetch_update_date soup = some d) :
    main digest (.ok ⟨st, soup⟩) emptyStore =
      ⟨.changed [dateChangeMessage none (some d), hashChangeMessage],
       ⟨.saved d, some (extract_and_combine_tables soup.elems).1,
        some (compute_hash digest (extract_and_combine_tables soup.elems).1)⟩,
       true⟩ := by
  have hre : (extract_and_combine_tables soup.elems).1.isEmpty = false := by
    simp [List.isEmpty_iff, hrows]
  simp [main, hre, hdate, load_previous_state, emptyStore, detect_changes,
        date_change_fires, hash_change_fires, save_current_state, runOps, saveOps,
        applyOp, EMAIL_NOTIFICATION]

/-- Witness for C2 (amended) on the concrete one-table page with a stamp. -/
theorem first_run_baseline_witness :
    main digestLen (.ok ⟨200, sampleSoup⟩) emptyStore =
      ⟨.changed [dateChangeMessage none (some ⟨2025, 1, 2⟩), hashChangeMessage],
       ⟨.saved ⟨2025, 1, 2⟩, some [sampleRow], some "1"⟩, true⟩ := by
  have h := first_run_baseline digestLen 200 sampleSoup ⟨2025, 1, 2⟩ (by decide) rfl
  simpa using h

/-- C3: when a change is detected on a run whose page has no `Last update:`
stamp (the extracted date is absent — with the date check then unable to
fire, the detected change is exactly a fingerprint difference), the save is
invoked with the absent date and crashes formatting it, after the date file
has already been opened for writing and truncated: the run aborts with the
unhandled error, the store shows only the truncation (dataset and
fingerprint files untouched), and no notification is attempted. -/
theorem change_without_stamp_truncates_and_aborts (digest : List Row → String)
    (st : Nat) (soup : Soup) (s : Store)
    (hstamp : soup.stamp = none)
    (hrows : (extract_and_combine_tables soup.elems).1 ≠ [])
    (hdatefile : s.dateFile ≠ .truncated)
    (hhash : s.hashFile ≠ some (compute_hash digest (extract_and_combine_tables soup.elems).1)) :
    main digest (.ok ⟨st, soup⟩) s =
      ⟨.crashedInSave "AttributeError: NoneType object has no attribute strftime",
       { s with dateFile := .truncated }, false⟩ := by
  have hre : (extract_and_combine_tables soup.elems).1.isEmpty = false := by
    simp [List.isEmpty_iff, hrows]
  have hfetch : fetch_update_date soup = none := by
    simp [fetch_update_date, hstamp]
  have hhf : hash_change_fires
      (compute_hash digest (extract_and_combine_tables soup.elems).1) s.hashFile = true := by
    simpa [hash_change_fires] using hhash
  rcases hsd : s.dateFile with _ | _ | d
  · simp [main, hre, hfetch, load_previous_state, hsd, detect_changes,
          date_change_fires, hhf, save_current_state, applyOp]
  · exact absurd hsd hdatefile
  · simp [main, hre, hfetch, load_previous_state, hsd, detect_changes,
          date_change_fires, hhf, save_current_state, applyOp]

/-- Witness for C3: first run against a stampless one-table page. -/
theorem change_without_stamp_witness :
    main digestLen (.ok ⟨200, ⟨[.table sampleRaw], none⟩⟩) emptyStore =
      ⟨.crashedInSave "AttributeError: NoneType object has no attribute strftime",
       { emptyStore with dateFile := .truncated }, false⟩ :=
  change_without_stamp_truncates_and_aborts digestLen 200 ⟨[.table sampleRaw], none⟩
    emptyStore rfl (by decide) (by decide) (by decide)

/-- Inversion helper: a run that ended in `changed` had a present update
date, a non-empty dataset, and left the store holding exactly the observed
date, dataset and fingerprint. -/
theorem main_changed_inv (digest : List Row → String) (st : Nat) (soup : Soup)
    (s : Store) (msgs : List String)
    (h : (main digest (.ok ⟨st, soup⟩) s).outcome = .changed msgs) :
    ∃ d, fetch_update_date soup = some d ∧
      (extract_and_combine_tables soup.elems).1.isEmpty = false ∧
      (main digest (.ok ⟨st, soup⟩) s).store =
        ⟨.saved d, some (extract_and_combine_tables soup.elems).1,
         some (compute_hash digest (extract_and_combine_tables soup.elems).1)⟩ := by
  by_cases hre : (extract_and_combine_tables soup.elems).1.isEmpty
  · simp [main, hre] at h
  · rw [Bool.not_eq_true] at hre
    cases hload : load_previous_state s with
    | error e => simp [main, hre, hload] at h
    | ok pr =>
      obtain ⟨prev_date, prev_hash⟩ := pr
      cases hlat : fetch_update_date soup with
      | none =>
        by_cases hdet : (detect_changes none prev_date
            (compute_hash digest (extract_and_combine_tables soup.elems).1) prev_hash).1
        · simp [main, hre, hload, hlat, hdet, save_current_state, applyOp] at h
        · rw [Bool.not_eq_true] at hdet
          simp [main, hre, hload, hlat, hdet] at h
      | some d =>
        refine ⟨d, rfl, hre, ?_⟩
        by_cases hdet : (detect_changes (some d) prev_date
            (compute_hash digest (extract_and_combine_tables soup.elems).1) prev_hash).1
        · simp [main, hre, hload, hlat, hdet, save_current_state, runOps, saveOps, applyOp]
        · rw [Bool.not_eq_true] at hdet
          simp [main, hre, hload, hlat, hdet] at h

/-- C5: idempotence of the detector across runs — when a run against a page
detects a change and persists its observed state (the `changed` outcome,
whose save completed), a second run against the unchanged page, starting
from the store the first run left, detects no change. -/
theorem second_run_unchanged_no_change (digest : List Row → String) (st1 st2 : Nat)
    (soup : Soup) (s : Store) (msgs : List String)
    (h : (main digest (.ok ⟨st1, soup⟩) s).outcome = .changed msgs) :
    (main digest (.ok ⟨st2, soup⟩) (main digest (.ok ⟨st1, soup⟩) s).store).outcome =
      .noChange := by
  obtain ⟨d, hlat, hre, hstore⟩ := main_changed_inv digest st1 soup s msgs h
  rw [hstore]
  simp [main, hre, hlat, load_previous_state, detect_changes, date_change_fires,
        hash_change_fires]

/-- Witness for C5: two successive runs on the concrete stamped page from
the empty store — the first changes and saves, the second reports no
change. -/
theorem second_run_unchanged_witness :
    (main digestLen (.ok ⟨200, sampleSoup⟩) emptyStore).outcome =
      .changed [dateChangeMessage none (some ⟨2025, 1, 2⟩), hashChangeMessage] ∧
    (main digestLen (.ok ⟨200, sampleSoup⟩)
        (main digestLen (.ok ⟨200, sampleSoup⟩) emptyStore).store).outcome = .noChange :=
  ⟨by decide, second_run_unchanged_no_change digestLen 200 200 sampleSoup emptyStore
    [dateChangeMessage none (some ⟨2025, 1, 2⟩), hashChangeMessage] (by decide)⟩

end OneModel
